import Mathlib

/-!
Shallow embedding of the deterministic fallback engine of the email agent
(`core/llm_agent.py`, `core/prompt_manager.py`, `core/models.py`): the
rule-based classifier, action extractor, reply drafter, chat-query routing,
and the record-store mutators.  Machine strings are Lean `String`s; Python
`needle in haystack` is `strContains haystack needle`; Python `None`
sentinels are `Option`.
-/

/-- Python `s.lower()` followed by `needle in s`: case handling is done by the
callers, which lower-case first, exactly as the source does. `isPrefixB n h`
is true iff `n` is a prefix of `h`. -/
def isPrefixB : List Char → List Char → Bool
  | [], _ => true
  | _ :: _, [] => false
  | c :: cs, d :: ds => c == d && isPrefixB cs ds

/-- `containsAux n h` is true iff `n` occurs as a contiguous run inside `h`. -/
def containsAux : List Char → List Char → Bool
  | needle, [] => isPrefixB needle []
  | needle, c :: cs => isPrefixB needle (c :: cs) || containsAux needle cs

/-- Python `needle in haystack` on strings. -/
def strContains (haystack needle : String) : Bool :=
  containsAux needle.toList haystack.toList

/-- Python `s.lower()` (i.e. `String.toLower`, lower-casing every character),
written over the character list so it evaluates by kernel reduction. -/
def strLower (s : String) : String :=
  ⟨s.data.map Char.toLower⟩

/-- `models.ActionItem`: a single extracted task. -/
structure ActionItem where
  task : String
  deadline : String
deriving DecidableEq

/-- The plain-mapping form produced by pydantic `item.dict()`. -/
structure ActionItemDict where
  task : String
  deadline : String
deriving DecidableEq

/-- Pydantic `item.dict()` for an ActionItem. -/
def ActionItem.dict (a : ActionItem) : ActionItemDict :=
  ⟨a.task, a.deadline⟩

/-- Pydantic `ActionItem(**item)` reconstruction from the plain mapping. -/
def ActionItem.of_dict (d : ActionItemDict) : ActionItem :=
  ⟨d.task, d.deadline⟩

/-- `models.EmailRecord`: raw fields plus the processed output fields. -/
structure EmailRecord where
  id : Int
  sender : String
  subject : String
  timestamp : String
  body : String
  is_read : Bool
  category : String
  action_items : List ActionItem
  draft_reply : String
deriving DecidableEq

/-- The spam indicator list of `_mock_categorize`. -/
def spam_indicators : List String :=
  ["pre-approved", "loan", "click here immediately", "act fast", "social security number",
   "unauthorized login", "suspicious", "verify your credentials", "verify your account",
   "claim your", "limited time", "act now", "you have won"]

/-- The newsletter indicator list of `_mock_categorize`. -/
def newsletter_indicators : List String :=
  ["digest", "newsletter", "weekly update", "monthly update", "last month",
   "unsubscribe", "view in browser", "new release", "announcement",
   "latest news", "this week", "tech digest", "updates include",
   "we\x27ve been up to", "excited to share", "here\x27s what", "what we\x27ve been",
   "this month\x27s updates", "happy to announce", "check out", "new and improved",
   "and much more", "and more", "introducing", "now available",
   "last month", "this quarter", "our team", "we are thrilled"]

/-- The newsletter sender list of `_mock_categorize`. -/
def newsletter_senders : List String :=
  ["marketing", "news@", "newsletter@", "noreply@", "updates@",
   "hello@", "team@", "info@"]

/-- The direct action word list of `_mock_categorize`. -/
def direct_action_words : List String :=
  ["please confirm", "please send", "please update", "please review",
   "need you to", "can you", "could you", "would you",
   "must complete", "required to", "action required",
   "respond by", "reply by", "confirm by",
   "task request", "confirm your", "send your", "update your"]

/-- The meeting request phrase list of `_mock_categorize`. -/
def meeting_requests : List String :=
  ["jump on a call", "schedule a call", "quick call", "can we meet",
   "meeting request", "let me know if", "what time works",
   "does this time work", "are you available", "schedule a meeting",
   "suggest a time", "suggest an alternative"]

/-- The question-based request phrase list of `_mock_categorize`. -/
def question_requests : List String :=
  ["could we", "can we", "would you be able to", "are you able to",
   "do you have time", "when can you", "how soon can you"]

/-- `EmailLLMAgent._mock_categorize`: the rule-based classifier used when the
LLM is unavailable.  Mirrors the source ordering exactly: spam, strong
newsletter signals, Important, the three To-Do phrase families, subject
To-Do keywords, conditional single-word To-Do, general newsletter signals,
policy announcements, and the default. -/
def mock_categorize (email : EmailRecord) : String :=
  let subject_lower := strLower email.subject
  let body_lower := strLower email.body
  let sender_lower := strLower email.sender
  if spam_indicators.any (fun word => strContains subject_lower word || strContains body_lower word) then
    "Spam"
  else
    let is_newsletter_content :=
      newsletter_indicators.any (fun word => strContains subject_lower word || strContains body_lower word)
    let is_newsletter_sender :=
      newsletter_senders.any (fun sender => strContains sender_lower sender)
    if strContains body_lower "informational" then "Newsletter"
    else if strContains body_lower "unsubscribe" || strContains body_lower "view in browser" then "Newsletter"
    else if strContains body_lower "we\x27ve been" || strContains body_lower "excited to share" then "Newsletter"
    else if strContains body_lower "last month" && strContains body_lower "updates" then "Newsletter"
    else if strContains subject_lower "urgent" || strContains sender_lower "director" || strContains sender_lower "ceo" then "Important"
    else if direct_action_words.any (fun word => strContains body_lower word) then "To-Do"
    else if meeting_requests.any (fun word => strContains body_lower word) then "To-Do"
    else if question_requests.any (fun word => strContains body_lower word) then "To-Do"
    else if ["need help", "follow-up", "question about", "help with"].any (fun word => strContains subject_lower word) then "To-Do"
    else if (["confirm", "update", "review", "complete"].any (fun word => strContains subject_lower word || strContains body_lower word))
            && (["please", "by eod", "deadline", "asap", "urgent", "by today", "by tomorrow"].any (fun indicator => strContains body_lower indicator)) then "To-Do"
    else if is_newsletter_content || is_newsletter_sender then "Newsletter"
    else if ["policy change", "status update", "no action", "company-wide", "fyi", "for your information"].any
              (fun word => strContains subject_lower word || strContains body_lower word) then "Newsletter"
    else "Newsletter"

/-- `EmailLLMAgent._mock_extract_actions`: independent keyword checks, results
appended in source declaration order (confirm, update/complete, review,
meeting/invitation, invoice/payment). -/
def mock_extract_actions (email : EmailRecord) : List ActionItem :=
  let subject_lower := strLower email.subject
  let body_lower := strLower email.body
  (if strContains subject_lower "confirm" || strContains body_lower "confirm" then
    [{ task := "Confirm attendance/action for: " ++ email.subject,
       deadline := if strContains body_lower "eod" then "EOD today" else "ASAP" }]
  else []) ++
  (if strContains subject_lower "update" || strContains body_lower "complete" then
    [{ task := "Complete task: " ++ email.subject,
       deadline := if strContains body_lower "wednesday" then "Wednesday morning" else "None" }]
  else []) ++
  (if strContains subject_lower "review" || strContains body_lower "review" then
    [{ task := "Review and respond to: " ++ email.subject, deadline := "None" }]
  else []) ++
  (if strContains subject_lower "meeting" || strContains subject_lower "invitation" then
    [{ task := "Respond to meeting invitation: " ++ email.subject, deadline := "ASAP" }]
  else []) ++
  (if strContains subject_lower "invoice" || strContains body_lower "payment" then
    [{ task := "Process payment for: " ++ email.subject,
       deadline := if strContains body_lower "friday" then "Friday" else "Next week" }]
  else [])

/-- `EmailLLMAgent._mock_draft_reply`: first match wins, in source order —
meeting keywords, task keywords in subject, question markers, newsletter/spam
markers (empty reply), generic acknowledgment. -/
def mock_draft_reply (email : EmailRecord) : String :=
  let subject_lower := strLower email.subject
  let body_lower := strLower email.body
  if ["meeting", "invitation", "schedule", "call", "sync", "brainstorm"].any
       (fun word => strContains subject_lower word || strContains body_lower word) then
    "Thank you for the invitation. Could you please send a brief agenda or purpose for this meeting? I\x27d like to come prepared. Looking forward to it!"
  else if ["task request", "update", "review"].any (fun word => strContains subject_lower word) then
    "Thank you for reaching out. I\x27ve received your request and will look into this. I\x27ll get back to you with an update soon."
  else if strContains subject_lower "question" || strContains body_lower "?" then
    "Thanks for your question. Let me review this and get back to you with a detailed response shortly."
  else if ["newsletter", "digest", "unsubscribe", "pre-approved"].any
            (fun word => strContains subject_lower word || strContains body_lower word) then
    ""
  else
    "Thank you for your email. I\x27ve received it and will respond accordingly."

/-- `PromptManager.get_email_by_id`: first record with the given id, if any. -/
def get_email_by_id (emails : List EmailRecord) (email_id : Int) : Option EmailRecord :=
  emails.find? (fun e => e.id == email_id)

/-- The conversion `save_email_state` applies to each incoming action item:
a plain dict is validated into `ActionItem(**item)`, an `ActionItem` is kept. -/
def coerce_action_item : ActionItemDict ⊕ ActionItem → ActionItem
  | .inl d => ActionItem.of_dict d
  | .inr a => a

/-- The in-place mutation of `save_email_state`, applied to the found record:
each argument that is not the Python `None` sentinel overwrites its field. -/
def apply_email_updates (email : EmailRecord) (category : Option String)
    (action_items : Option (List (ActionItemDict ⊕ ActionItem)))
    (draft_reply : Option String) : EmailRecord :=
  let e1 := match category with
    | some c => { email with category := c }
    | none => email
  let e2 := match action_items with
    | some items => { e1 with action_items := items.map coerce_action_item }
    | none => e1
  match draft_reply with
  | some d => { e2 with draft_reply := d }
  | none => e2

/-- Replace the first record whose id matches (the object `get_email_by_id`
returns and `save_email_state` mutates in place); later records untouched. -/
def update_first_email (emails : List EmailRecord) (email_id : Int)
    (f : EmailRecord → EmailRecord) : List EmailRecord :=
  match emails with
  | [] => []
  | e :: rest =>
    if e.id == email_id then f e :: rest
    else e :: update_first_email rest email_id f

/-- `PromptManager.save_email_state`: updates the processed outputs of the
record with the given id; returns `True` and the new store when found,
`False` and the unchanged store otherwise. -/
def save_email_state (emails : List EmailRecord) (email_id : Int)
    (category : Option String)
    (action_items : Option (List (ActionItemDict ⊕ ActionItem)))
    (draft_reply : Option String) : Bool × List EmailRecord :=
  match get_email_by_id emails email_id with
  | some _ =>
    (true, update_first_email emails email_id
      (fun e => apply_email_updates e category action_items draft_reply))
  | none => (false, emails)

/-- `EmailLLMAgent.process_email_ingestion` in mock mode: categorize, extract,
draft, then save (the action items are passed as plain dicts, `item.dict()`). -/
def process_email_ingestion (emails : List EmailRecord) (email_id : Int) :
    List EmailRecord :=
  match get_email_by_id emails email_id with
  | none => emails
  | some email =>
    let category := mock_categorize email
    let action_items := mock_extract_actions email
    let draft_reply := mock_draft_reply email
    (save_email_state emails email_id (some category)
      (some (action_items.map (fun item => Sum.inl item.dict)))
      (some draft_reply)).2

/-- The bulleted line `handle_chat_query` renders for one stored ActionItem. -/
def render_task_line (item : ActionItem) : String :=
  "- " ++ item.task ++ " (Deadline: " ++ item.deadline ++ ")"

/-- The deterministic placeholder `handle_chat_query` returns in mock mode
when no routing rule matched. -/
def mock_chat_response (user_query : String) (email_id : Option Int) : String :=
  "Mock response for query: \x27" ++ user_query ++ "\x27. If email ID " ++
    (match email_id with
     | some n => toString n
     | none => "None") ++ " was selected, it was used as context."

/-- The tail of `handle_chat_query` reached when no email-specific branch
returned: the "show me all"/"urgent emails" category filter, then the
mock-mode placeholder. -/
def chat_fallthrough (emails : List EmailRecord) (user_query : String)
    (email_id : Option Int) : String :=
  if strContains (strLower user_query) "show me all" || strContains (strLower user_query) "urgent emails" then
    let target_category := if strContains (strLower user_query) "urgent" then "Important" else "To-Do"
    let filtered_emails := emails.filter (fun e => e.category == target_category)
    if ¬ filtered_emails.isEmpty then
      "Found " ++ toString filtered_emails.length ++ " emails categorized as **" ++ target_category ++ "**:\n" ++
        String.intercalate "\n" (filtered_emails.map (fun e => "- ID " ++ toString e.id ++ ": " ++ e.subject))
    else
      "No emails currently categorized as **" ++ target_category ++ "**."
  else
    mock_chat_response user_query email_id

/-- `EmailLLMAgent.handle_chat_query` in mock mode.  With a selected email the
branches run in source order: "draft a reply"; then `if "summarize" ...
elif "tasks" ...` — a query matching "summarize" falls through to the tail
even when it also contains "tasks"; the "tasks" branch renders the stored
action items or the fixed no-items message. -/
def handle_chat_query (emails : List EmailRecord) (user_query : String)
    (email_id : Option Int) : String :=
  match email_id with
  | none => chat_fallthrough emails user_query none
  | some eid =>
    match get_email_by_id emails eid with
    | none => chat_fallthrough emails user_query (some eid)
    | some email =>
      if strContains (strLower user_query) "draft a reply" then
        "**Draft Generated:**\n\n" ++ mock_draft_reply email
      else if strContains (strLower user_query) "summarize" then
        chat_fallthrough emails user_query (some eid)
      else if strContains (strLower user_query) "tasks" then
        if ¬ email.action_items.isEmpty then
          "The extracted tasks from this email are:\n" ++
            String.intercalate "\n" (email.action_items.map render_task_line)
        else
          "No specific action items were extracted for this email."
      else
        chat_fallthrough emails user_query (some eid)

/-- `models.PromptTemplate`: a single prompt configuration entry. -/
structure PromptTemplate where
  name : String
  description : String
  template : String
  output_format : String
  json_schema : Option String
deriving DecidableEq

/-- `models.PromptConfiguration`: the three named prompts. -/
structure PromptConfiguration where
  Categorization_Prompt : PromptTemplate
  Action_Extraction_Prompt : PromptTemplate
  Auto_Reply_Prompt : PromptTemplate
deriving DecidableEq

/-- The keys of the dict `PromptConfiguration.dict()` produces, tested by
`prompt_name in config`. -/
def prompt_config_keys : List String :=
  ["Categorization_Prompt", "Action_Extraction_Prompt", "Auto_Reply_Prompt"]

/-- The dict mutation `config[prompt_name]["template"] = new_template` read
back as a configuration value. -/
def set_template (config : PromptConfiguration) (prompt_name new_template : String) :
    PromptConfiguration :=
  if prompt_name = "Categorization_Prompt" then
    { config with Categorization_Prompt := { config.Categorization_Prompt with template := new_template } }
  else if prompt_name = "Action_Extraction_Prompt" then
    { config with Action_Extraction_Prompt := { config.Action_Extraction_Prompt with template := new_template } }
  else if prompt_name = "Auto_Reply_Prompt" then
    { config with Auto_Reply_Prompt := { config.Auto_Reply_Prompt with template := new_template } }
  else config

/-- Pydantic re-validation `PromptConfiguration(**config)`.  The dict here
always comes from `.dict()` of a valid configuration with one template string
replaced, so every required field is present and well-typed and validation
reconstructs the configuration; the `none` case (ValidationError) is therefore
unreachable on this path but kept to mirror the `except` branch. -/
def validate_prompt_configuration (config : PromptConfiguration) :
    Option PromptConfiguration :=
  some config

/-- `PromptManager.update_prompt_template`: rebuilds the configuration from
the mutated dict; on validation failure or an unknown name returns `False`
and keeps the prior configuration. -/
def update_prompt_template (prompts : PromptConfiguration)
    (prompt_name new_template : String) : Bool × PromptConfiguration :=
  if prompt_name ∈ prompt_config_keys then
    match validate_prompt_configuration (set_template prompts prompt_name new_template) with
    | some validated => (true, validated)
    | none => (false, prompts)
  else (false, prompts)

/-- The example email of claim C1: a spam body from an "Important" sender. -/
def example_email_spam : EmailRecord :=
  ⟨1, "director@co.com", "Sensitive", "t",
   "You have won a prize, click here immediately", false, "", [], ""⟩

/-- The example email of claim C2: an urgent subject with To-Do trigger body. -/
def example_email_urgent : EmailRecord :=
  ⟨2, "alice@co.com", "Urgent: Budget Review", "t",
   "please confirm by EOD", false, "", [], ""⟩

/-- Claim C1: any email whose lower-cased subject or body contains a spam
indicator classifies as "Spam", for every sender — the spam check is the
first rule of `_mock_categorize`, so sender markers such as "director"
cannot override it. -/
theorem spam_check_precedes_sender (e : EmailRecord)
    (h : spam_indicators.any
        (fun word => strContains (strLower e.subject) word || strContains (strLower e.body) word) = true) :
    mock_categorize e = "Spam" := by
  simp only [mock_categorize, h, if_true]

/-- Witness for C1: the spec example — subject "Sensitive", body with "you
have won" and "click here immediately", sender "director@co.com" — is Spam. -/
theorem spam_check_precedes_sender_witness :
    mock_categorize example_email_spam = "Spam" :=
  spam_check_precedes_sender example_email_spam (by decide)

/-- Claim C2: when no spam indicator matches and none of the four strong
newsletter signals fires, an email whose subject contains "urgent"
classifies as "Important" — the Important rule precedes every To-Do rule,
whatever the body contains. -/
theorem important_check_precedes_todo (e : EmailRecord)
    (hspam : spam_indicators.any
        (fun word => strContains (strLower e.subject) word || strContains (strLower e.body) word) = false)
    (hn1 : strContains (strLower e.body) "informational" = false)
    (hn2 : (strContains (strLower e.body) "unsubscribe" || strContains (strLower e.body) "view in browser") = false)
    (hn3 : (strContains (strLower e.body) "we\x27ve been" || strContains (strLower e.body) "excited to share") = false)
    (hn4 : (strContains (strLower e.body) "last month" && strContains (strLower e.body) "updates") = false)
    (hurgent : strContains (strLower e.subject) "urgent" = true) :
    mock_categorize e = "Important" := by
  simp only [mock_categorize, hspam, hn1, hn2, hn3, hn4, hurgent, Bool.true_or,
    Bool.false_eq_true, if_false, if_true]

/-- Witness for C2: the spec example — subject "Urgent: Budget Review", body
"please confirm by EOD", sender "alice@co.com" — is Important, not To-Do. -/
theorem important_check_precedes_todo_witness :
    mock_categorize example_email_urgent = "Important" :=
  important_check_precedes_todo example_email_urgent (by decide) (by decide)
    (by decide) (by decide) (by decide) (by decide)

/-- The counterexample email for claim C3: body matches the newsletter/spam
marker "unsubscribe", subject matches the meeting keyword "meeting". -/
def counterexample_email_drafter : EmailRecord :=
  ⟨3, "news@co.com", "Team meeting", "t", "Please unsubscribe here", false, "", [], ""⟩

/-- Counterexample to C3 as stated: this email contains the newsletter/spam
marker "unsubscribe", yet `_mock_draft_reply` does not return the empty
string — the meeting-keyword rule is checked first and wins. -/
theorem drafter_suppression_counterexample :
    (["newsletter", "digest", "unsubscribe", "pre-approved"].any
        (fun word => strContains (strLower counterexample_email_drafter.subject) word
          || strContains (strLower counterexample_email_drafter.body) word)) = true ∧
    mock_draft_reply counterexample_email_drafter ≠ "" := by
  constructor
  · decide
  · decide

/-- Claim C3 (amended): an email matching a newsletter/spam marker draws the
empty draft reply provided none of the three earlier drafter rules fires: no
meeting keyword in subject or body, no task keyword in the subject, and no
question marker. -/
theorem drafter_suppression_amended (e : EmailRecord)
    (hmeet : (["meeting", "invitation", "schedule", "call", "sync", "brainstorm"].any
        (fun word => strContains (strLower e.subject) word || strContains (strLower e.body) word)) = false)
    (htask : (["task request", "update", "review"].any
        (fun word => strContains (strLower e.subject) word)) = false)
    (hq : (strContains (strLower e.subject) "question" || strContains (strLower e.body) "?") = false)
    (hmark : (["newsletter", "digest", "unsubscribe", "pre-approved"].any
        (fun word => strContains (strLower e.subject) word || strContains (strLower e.body) word)) = true) :
    mock_draft_reply e = "" := by
  simp only [mock_draft_reply, hmeet, htask, hq, hmark, Bool.false_eq_true, if_false, if_true]

/-- Witness for the amended C3: a plain digest email with no meeting, task or
question trigger gets the empty (suppressed) reply. -/
theorem drafter_suppression_amended_witness :
    mock_draft_reply ⟨5, "news@co.com", "Weekly digest", "t", "hello", false, "", [], ""⟩ = "" :=
  drafter_suppression_amended ⟨5, "news@co.com", "Weekly digest", "t", "hello", false, "", [], ""⟩
    (by decide) (by decide) (by decide) (by decide)

/-- Claim C4: the extractor rules are independent and appended in declaration
order — body containing "confirm" and "review", subject containing "meeting",
and no other rule keyword, yields exactly the confirm item, the review item,
then the meeting-invitation item. -/
theorem extractor_independence_order (e : EmailRecord)
    (hconfirm : strContains (strLower e.body) "confirm" = true)
    (hreview : strContains (strLower e.body) "review" = true)
    (hmeeting : strContains (strLower e.subject) "meeting" = true)
    (hupdate : (strContains (strLower e.subject) "update" || strContains (strLower e.body) "complete") = false)
    (hinvoice : (strContains (strLower e.subject) "invoice" || strContains (strLower e.body) "payment") = false) :
    mock_extract_actions e =
      [{ task := "Confirm attendance/action for: " ++ e.subject,
         deadline := if strContains (strLower e.body) "eod" then "EOD today" else "ASAP" },
       { task := "Review and respond to: " ++ e.subject, deadline := "None" },
       { task := "Respond to meeting invitation: " ++ e.subject, deadline := "ASAP" }] := by
  simp only [mock_extract_actions, hconfirm, hreview, hmeeting, hupdate, hinvoice,
    Bool.or_true, Bool.true_or, Bool.false_eq_true, if_false, if_true, List.append_nil,
    List.singleton_append, List.cons_append, List.nil_append]

/-- Witness for C4: a concrete meeting email whose body asks to confirm and
review yields the three items in order. -/
theorem extractor_independence_order_witness :
    mock_extract_actions ⟨4, "s@co.com", "Meeting tomorrow", "t", "please confirm and review", false, "", [], ""⟩ =
      [⟨"Confirm attendance/action for: Meeting tomorrow", "ASAP"⟩,
       ⟨"Review and respond to: Meeting tomorrow", "None"⟩,
       ⟨"Respond to meeting invitation: Meeting tomorrow", "ASAP"⟩] := by
  rw [extractor_independence_order ⟨4, "s@co.com", "Meeting tomorrow", "t", "please confirm and review", false, "", [], ""⟩
    (by decide) (by decide) (by decide) (by decide) (by decide)]
  decide

/-- The counterexample email for claim C5: one stored action item. -/
def counterexample_email_tasks : EmailRecord :=
  ⟨1, "alice@co.com", "Report", "t", "x", false, "", [⟨"Review report", "None"⟩], ""⟩

/-- Counterexample to C5 as stated: the query "summarize tasks" contains
"tasks" and not "draft a reply", yet with email 1 selected the responder does
not render the stored action items — `handle_chat_query` tests "summarize"
before "tasks" (`if` / `elif`), so the query falls through to the mock
placeholder. -/
theorem tasks_route_counterexample :
    strContains (strLower "summarize tasks") "tasks" = true ∧
    strContains (strLower "summarize tasks") "draft a reply" = false ∧
    handle_chat_query [counterexample_email_tasks] "summarize tasks" (some 1) =
      mock_chat_response "summarize tasks" (some 1) ∧
    handle_chat_query [counterexample_email_tasks] "summarize tasks" (some 1) ≠
      "The extracted tasks from this email are:\n" ++
        String.intercalate "\n" (counterexample_email_tasks.action_items.map render_task_line) := by
  refine ⟨by decide, by decide, by decide, by decide⟩

/-- Claim C5 (amended): when an email is selected and found and the query
contains "tasks" but neither "draft a reply" nor "summarize", the responder
renders the stored action items as a bulleted list, or the fixed no-items
message when the list is empty. -/
theorem tasks_route_amended (emails : List EmailRecord) (user_query : String)
    (eid : Int) (email : EmailRecord)
    (hfound : get_email_by_id emails eid = some email)
    (hdraft : strContains (strLower user_query) "draft a reply" = false)
    (hsumm : strContains (strLower user_query) "summarize" = false)
    (htasks : strContains (strLower user_query) "tasks" = true) :
    handle_chat_query emails user_query (some eid) =
      (if ¬ email.action_items.isEmpty then
        "The extracted tasks from this email are:\n" ++
          String.intercalate "\n" (email.action_items.map render_task_line)
      else "No specific action items were extracted for this email.") := by
  simp only [handle_chat_query, hfound, hdraft, hsumm, htasks, Bool.false_eq_true,
    if_false, if_true]

/-- Witness for the amended C5: query "list tasks" on the selected email
returns its one stored item as a bullet line. -/
theorem tasks_route_amended_witness :
    handle_chat_query [counterexample_email_tasks] "list tasks" (some 1) =
      "The extracted tasks from this email are:\n- Review report (Deadline: None)" := by
  rw [tasks_route_amended [counterexample_email_tasks] "list tasks" 1
    counterexample_email_tasks (by decide) (by decide) (by decide) (by decide)]
  decide

/-- Helper: a two-branch conditional stays in a set both of whose branches
are in the set. -/
theorem mem_ite {c : Prop} [Decidable c] {a b : String} {S : List String}
    (ha : a ∈ S) (hb : b ∈ S) : (if c then a else b) ∈ S := by
  split <;> assumption

/-- Helper: a two-branch conditional equals a value both branches equal. -/
theorem ite_eq_both {c : Prop} [Decidable c] {a b s : String}
    (ha : a = s) (hb : b = s) : (if c then a else b) = s := by
  split <;> assumption

/-- Helper: the classifier only ever returns one of the four category
strings, whichever branch is taken. -/
theorem mock_categorize_mem_four (e : EmailRecord) :
    mock_categorize e ∈ (["Important", "To-Do", "Newsletter", "Spam"] : List String) := by
  simp only [mock_categorize]
  repeat' apply mem_ite
  all_goals decide

/-- Helper: membership in the first update of the store factors through the
original records and the update function. -/
theorem mem_update_first_email {emails : List EmailRecord} {eid : Int}
    {f : EmailRecord → EmailRecord} {r : EmailRecord}
    (h : r ∈ update_first_email emails eid f) :
    r ∈ emails ∨ ∃ e ∈ emails, r = f e := by
  induction emails with
  | nil => simp [update_first_email] at h
  | cons e rest ih =>
    simp only [update_first_email] at h
    split at h
    · rcases List.mem_cons.mp h with h1 | h1
      · exact Or.inr ⟨e, List.mem_cons_self e rest, h1⟩
      · exact Or.inl (List.mem_cons_of_mem _ h1)
    · rcases List.mem_cons.mp h with h1 | h1
      · exact Or.inl (h1 ▸ List.mem_cons_self e rest)
      · rcases ih h1 with h2 | ⟨x, hx, hr⟩
        · exact Or.inl (List.mem_cons_of_mem _ h2)
        · exact Or.inr ⟨x, List.mem_cons_of_mem _ hx, hr⟩

/-- Helper: saving with an explicit category writes exactly that category. -/
theorem apply_email_updates_category (e : EmailRecord) (c : String)
    (ai : Option (List (ActionItemDict ⊕ ActionItem))) (dr : Option String) :
    (apply_email_updates e (some c) ai dr).category = c := by
  cases ai <;> cases dr <;> rfl

/-- Claim C6: the classifier is total with values in the four category
strings; when no spam, Important or To-Do rule matches it returns the
default "Newsletter"; and the ingestion pipeline keeps every stored category
inside the five-string invariant set (empty = unprocessed). -/
theorem categorize_total_closed_set :
    (∀ e : EmailRecord,
      mock_categorize e ∈ (["Important", "To-Do", "Newsletter", "Spam"] : List String)) ∧
    (∀ e : EmailRecord,
      spam_indicators.any
        (fun word => strContains (strLower e.subject) word || strContains (strLower e.body) word) = false →
      (strContains (strLower e.subject) "urgent" || strContains (strLower e.sender) "director"
        || strContains (strLower e.sender) "ceo") = false →
      direct_action_words.any (fun word => strContains (strLower e.body) word) = false →
      meeting_requests.any (fun word => strContains (strLower e.body) word) = false →
      question_requests.any (fun word => strContains (strLower e.body) word) = false →
      (["need help", "follow-up", "question about", "help with"].any
        (fun word => strContains (strLower e.subject) word)) = false →
      ((["confirm", "update", "review", "complete"].any
          (fun word => strContains (strLower e.subject) word || strContains (strLower e.body) word))
        && (["please", "by eod", "deadline", "asap", "urgent", "by today", "by tomorrow"].any
          (fun indicator => strContains (strLower e.body) indicator))) = false →
      mock_categorize e = "Newsletter") ∧
    (∀ (emails : List EmailRecord) (eid : Int),
      (∀ r ∈ emails, r.category ∈ (["", "Important", "To-Do", "Newsletter", "Spam"] : List String)) →
      ∀ r ∈ process_email_ingestion emails eid,
        r.category ∈ (["", "Important", "To-Do", "Newsletter", "Spam"] : List String)) := by
  refine ⟨mock_categorize_mem_four, ?_, ?_⟩
  · intro e hspam himp ht1 ht2 ht3 ht4 ht5
    simp only [mock_categorize, hspam, himp, ht1, ht2, ht3, ht4, ht5,
      Bool.false_eq_true, if_false]
    repeat' apply ite_eq_both
    all_goals rfl
  · intro emails eid hinv r hr
    unfold process_email_ingestion at hr
    cases hfind : get_email_by_id emails eid with
    | none => rw [hfind] at hr; exact hinv r hr
    | some email =>
      rw [hfind] at hr
      simp only [save_email_state, hfind] at hr
      rcases mem_update_first_email hr with h | ⟨x, _, hrx⟩
      · exact hinv r h
      · rw [hrx, apply_email_updates_category]
        have h4 := mock_categorize_mem_four email
        simp only [List.mem_cons, List.mem_singleton] at h4 ⊢
        tauto

/-- A keyword-free record used to witness the pipeline invariant of C6. -/
def demo_store_record : EmailRecord := ⟨1, "c", "a", "t", "b", false, "", [], ""⟩

/-- The record the mock pipeline produces from `demo_store_record`. -/
def demo_processed_record : EmailRecord :=
  { demo_store_record with
    category := "Newsletter",
    draft_reply := "Thank you for your email. I\x27ve received it and will respond accordingly." }

/-- Witness for C6: a keyword-free email classifies as the default
"Newsletter", and the record the pipeline writes for it stays inside the
five-string invariant set. -/
theorem categorize_total_closed_set_witness :
    mock_categorize demo_store_record ∈ (["Important", "To-Do", "Newsletter", "Spam"] : List String) ∧
    mock_categorize demo_store_record = "Newsletter" ∧
    demo_processed_record.category ∈ (["", "Important", "To-Do", "Newsletter", "Spam"] : List String) :=
  ⟨categorize_total_closed_set.1 demo_store_record,
   categorize_total_closed_set.2.1 demo_store_record (by decide) (by decide) (by decide)
     (by decide) (by decide) (by decide) (by decide),
   categorize_total_closed_set.2.2 [demo_store_record] 1 (by decide)
     demo_processed_record (by decide)⟩

/-- Claim C7: prompt-template editing is atomic — a failed update (unknown
name, or re-validation failure signalled by `False`) leaves the stored
configuration exactly as before, and a successful update changes the named
prompt's template text and nothing else. -/
theorem update_prompt_template_atomic (prompts : PromptConfiguration)
    (prompt_name new_template : String) :
    ((update_prompt_template prompts prompt_name new_template).1 = false →
      (update_prompt_template prompts prompt_name new_template).2 = prompts) ∧
    (prompt_name ∉ prompt_config_keys →
      update_prompt_template prompts prompt_name new_template = (false, prompts)) ∧
    ((update_prompt_template prompts prompt_name new_template).1 = true →
      (prompt_name ≠ "Categorization_Prompt" →
        (update_prompt_template prompts prompt_name new_template).2.Categorization_Prompt
          = prompts.Categorization_Prompt) ∧
      (prompt_name ≠ "Action_Extraction_Prompt" →
        (update_prompt_template prompts prompt_name new_template).2.Action_Extraction_Prompt
          = prompts.Action_Extraction_Prompt) ∧
      (prompt_name ≠ "Auto_Reply_Prompt" →
        (update_prompt_template prompts prompt_name new_template).2.Auto_Reply_Prompt
          = prompts.Auto_Reply_Prompt) ∧
      (prompt_name = "Categorization_Prompt" →
        (update_prompt_template prompts prompt_name new_template).2.Categorization_Prompt
          = { prompts.Categorization_Prompt with template := new_template }) ∧
      (prompt_name = "Action_Extraction_Prompt" →
        (update_prompt_template prompts prompt_name new_template).2.Action_Extraction_Prompt
          = { prompts.Action_Extraction_Prompt with template := new_template }) ∧
      (prompt_name = "Auto_Reply_Prompt" →
        (update_prompt_template prompts prompt_name new_template).2.Auto_Reply_Prompt
          = { prompts.Auto_Reply_Prompt with template := new_template })) := by
  by_cases h1 : prompt_name = "Categorization_Prompt"
  · subst h1
    simp [update_prompt_template, prompt_config_keys, set_template,
      validate_prompt_configuration]
  · by_cases h2 : prompt_name = "Action_Extraction_Prompt"
    · subst h2
      simp [update_prompt_template, prompt_config_keys, set_template,
        validate_prompt_configuration]
    · by_cases h3 : prompt_name = "Auto_Reply_Prompt"
      · subst h3
        simp [update_prompt_template, prompt_config_keys, set_template,
          validate_prompt_configuration]
      · simp [update_prompt_template, prompt_config_keys, set_template,
          validate_prompt_configuration, h1, h2, h3]

/-- A concrete prompt configuration used by the C7 witness. -/
def demo_prompt_config : PromptConfiguration :=
  ⟨⟨"Categorization_Prompt", "d1", "t1", "text", none⟩,
   ⟨"Action_Extraction_Prompt", "d2", "t2", "json", some "s"⟩,
   ⟨"Auto_Reply_Prompt", "d3", "t3", "text", none⟩⟩

/-- Witness for C7: an unknown name is rejected and changes nothing; editing
the Auto_Reply_Prompt leaves the Categorization_Prompt untouched and
replaces only the named template text. -/
theorem update_prompt_template_atomic_witness :
    update_prompt_template demo_prompt_config "Missing_Prompt" "x" = (false, demo_prompt_config) ∧
    (update_prompt_template demo_prompt_config "Auto_Reply_Prompt" "x").2.Categorization_Prompt
      = demo_prompt_config.Categorization_Prompt ∧
    (update_prompt_template demo_prompt_config "Auto_Reply_Prompt" "x").2.Auto_Reply_Prompt
      = { demo_prompt_config.Auto_Reply_Prompt with template := "x" } :=
  ⟨(update_prompt_template_atomic demo_prompt_config "Missing_Prompt" "x").2.1 (by decide),
   ((update_prompt_template_atomic demo_prompt_config "Auto_Reply_Prompt" "x").2.2 (by decide)).1 (by decide),
   ((update_prompt_template_atomic demo_prompt_config "Auto_Reply_Prompt" "x").2.2 (by decide)).2.2.2.2.2 (by decide)⟩

/-- Claim C8: the round trip of an action item through the plain-mapping
representation — `item.dict()` in the ingestion pipeline, `ActionItem(**item)`
in `save_email_state` — preserves `task` and `deadline` exactly, item by item
and for whole lists. -/
theorem action_item_roundtrip (a : ActionItem) (items : List ActionItem) :
    (ActionItem.of_dict a.dict).task = a.task ∧
    (ActionItem.of_dict a.dict).deadline = a.deadline ∧
    coerce_action_item (Sum.inl a.dict) = a ∧
    ((items.map (fun item => Sum.inl item.dict) :
        List (ActionItemDict ⊕ ActionItem)).map coerce_action_item) = items := by
  refine ⟨rfl, rfl, rfl, ?_⟩
  induction items with
  | nil => rfl
  | cons x xs ih =>
    simp only [List.map_cons, ih]
    rfl

/-- Claim C9: the fallback classifier, extractor and drafter are deterministic
pure functions of the email's subject, body and sender strings — two records
agreeing on those fields (whatever their other fields) get identical
results, so repeated calls with identical arguments agree and no record or
configuration state is consulted or modified. -/
theorem fallback_functions_pure (e1 e2 : EmailRecord)
    (hsubj : e1.subject = e2.subject) (hbody : e1.body = e2.body)
    (hsender : e1.sender = e2.sender) :
    mock_categorize e1 = mock_categorize e2 ∧
    mock_extract_actions e1 = mock_extract_actions e2 ∧
    mock_draft_reply e1 = mock_draft_reply e2 := by
  cases e1
  cases e2
  simp only at hsubj hbody hsender
  subst hsubj
  subst hbody
  subst hsender
  exact ⟨rfl, rfl, rfl⟩

/-- Witness for C9: two records equal on subject, body and sender but
different in id, timestamp, read flag and processed fields classify alike. -/
theorem fallback_functions_pure_witness :
    mock_categorize ⟨1, "s@co.com", "a", "t1", "b", false, "", [], ""⟩ =
      mock_categorize ⟨2, "s@co.com", "a", "t2", "b", true, "Spam", [⟨"x", "y"⟩], "z"⟩ :=
  (fallback_functions_pure ⟨1, "s@co.com", "a", "t1", "b", false, "", [], ""⟩
    ⟨2, "s@co.com", "a", "t2", "b", true, "Spam", [⟨"x", "y"⟩], "z"⟩ rfl rfl rfl).1

/-- Helper: `find?` returns the first record matching the id when everything
before it does not match. -/
theorem find_first_match (pre : List EmailRecord) (target : EmailRecord)
    (post : List EmailRecord) (eid : Int)
    (hpre : ∀ p ∈ pre, p.id ≠ eid) (ht : target.id = eid) :
    (pre ++ target :: post).find? (fun e => e.id == eid) = some target := by
  induction pre with
  | nil =>
    simp only [List.nil_append]
    exact List.find?_cons_of_pos _ (by simp [ht])
  | cons p ps ih =>
    have hp : ¬ (p.id == eid) = true := by
      simpa using hpre p (List.mem_cons_self p ps)
    simp only [List.cons_append]
    rw [List.find?_cons_of_neg _ (by simpa using hp)]
    exact ih (fun q hq => hpre q (List.mem_cons_of_mem _ hq))

/-- Helper: updating the first match in a decomposed store rewrites exactly
the target record. -/
theorem update_first_email_append (pre : List EmailRecord) (target : EmailRecord)
    (post : List EmailRecord) (eid : Int) (f : EmailRecord → EmailRecord)
    (hpre : ∀ p ∈ pre, p.id ≠ eid) (ht : target.id = eid) :
    update_first_email (pre ++ target :: post) eid f = pre ++ f target :: post := by
  induction pre with
  | nil => simp [update_first_email, ht]
  | cons p ps ih =>
    have hp : (p.id == eid) = false := by
      simpa using hpre p (List.mem_cons_self p ps)
    simp only [List.cons_append, update_first_email, List.append_eq, hp,
      Bool.false_eq_true, if_false]
    rw [ih (fun q hq => hpre q (List.mem_cons_of_mem _ hq))]

/-- Claim C10: the frame property of `save_email_state` — an id with no
matching record returns `False` and leaves the store untouched; a matching
id returns `True` and rewrites the first matching record only, by
`apply_email_updates`; and `apply_email_updates` never changes id, sender,
subject, timestamp, body or the read flag, and leaves each of category,
action_items and draft_reply unchanged when its argument is the `None`
sentinel. -/
theorem save_email_state_frame (emails : List EmailRecord) (email_id : Int)
    (category : Option String)
    (action_items : Option (List (ActionItemDict ⊕ ActionItem)))
    (draft_reply : Option String) :
    ((∀ r ∈ emails, r.id ≠ email_id) →
      save_email_state emails email_id category action_items draft_reply = (false, emails)) ∧
    (∀ pre target post, emails = pre ++ target :: post →
      (∀ p ∈ pre, p.id ≠ email_id) → target.id = email_id →
      save_email_state emails email_id category action_items draft_reply =
        (true, pre ++ apply_email_updates target category action_items draft_reply :: post)) ∧
    (∀ e : EmailRecord,
      (apply_email_updates e category action_items draft_reply).id = e.id ∧
      (apply_email_updates e category action_items draft_reply).sender = e.sender ∧
      (apply_email_updates e category action_items draft_reply).subject = e.subject ∧
      (apply_email_updates e category action_items draft_reply).timestamp = e.timestamp ∧
      (apply_email_updates e category action_items draft_reply).body = e.body ∧
      (apply_email_updates e category action_items draft_reply).is_read = e.is_read ∧
      (category = none →
        (apply_email_updates e category action_items draft_reply).category = e.category) ∧
      (action_items = none →
        (apply_email_updates e category action_items draft_reply).action_items = e.action_items) ∧
      (draft_reply = none →
        (apply_email_updates e category action_items draft_reply).draft_reply = e.draft_reply)) := by
  refine ⟨?_, ?_, ?_⟩
  · intro hnone
    have hfind : emails.find? (fun e => e.id == email_id) = none := by
      rw [List.find?_eq_none]
      intro x hx
      simpa using hnone x hx
    simp [save_email_state, get_email_by_id, hfind]
  · intro pre target post hdecomp hpre ht
    subst hdecomp
    have hfind := find_first_match pre target post email_id hpre ht
    simp only [save_email_state, get_email_by_id, hfind]
    rw [update_first_email_append pre target post email_id _ hpre ht]
  · intro e
    cases category <;> cases action_items <;> cases draft_reply <;>
      simp [apply_email_updates]

/-- A first record for the C10 witness. -/
def demo_email_a : EmailRecord := ⟨1, "s1", "a", "t", "b", false, "", [], ""⟩

/-- A second record for the C10 witness. -/
def demo_email_b : EmailRecord := ⟨2, "s2", "c", "t", "d", false, "", [], ""⟩

/-- Witness for C10: a missing id changes nothing and reports `False`; saving
a category to record 2 rewrites only record 2; the update with sentinel
action_items and draft_reply keeps the body (and those fields) intact. -/
theorem save_email_state_frame_witness :
    save_email_state [demo_email_a, demo_email_b] 3 (some "Spam") none none =
      (false, [demo_email_a, demo_email_b]) ∧
    save_email_state [demo_email_a, demo_email_b] 2 (some "Spam") none none =
      (true, [demo_email_a, apply_email_updates demo_email_b (some "Spam") none none]) ∧
    (apply_email_updates demo_email_a (some "Spam") none none).body = demo_email_a.body :=
  ⟨(save_email_state_frame [demo_email_a, demo_email_b] 3 (some "Spam") none none).1 (by decide),
   (save_email_state_frame [demo_email_a, demo_email_b] 2 (some "Spam") none none).2.1
     [demo_email_a] demo_email_b [] rfl (by decide) (by decide),
   ((save_email_state_frame [demo_email_a, demo_email_b] 2 (some "Spam") none none).2.2
     demo_email_a).2.2.2.2.1⟩
